import Mathlib

/-!
Shallow embedding of the `logging` Go package (three files: config.go,
logging.go, middleware.go) together with theorems checking the repository's
natural-language specification against the code.

Modelling conventions:
* The Go `Level` type is `uint`; levels are modelled as `Nat` with the
  constants produced by the `iota` enumeration in config.go.
* The package-level mutable configuration variables of logging.go are
  gathered into a `LogState` record that is threaded explicitly.
* Side effects of a log call (message formatting, trace-provider reads,
  source-location lookup, sink submissions, sink flushes, process
  termination) are reified into an explicit effect record; `zap`'s
  `Fatal` method is the external Sink collaborator and, per its contract,
  performs one synchronous flush and then terminates the process.
* Heterogeneous Go `interface{}` argument values are modelled by the closed
  inductive `GoValue`.  A `[]byte` slice is carried as its decoded string
  form (Go's `string(b)` conversion is the identity on that representation).
  The `other` constructor carries the `fmt` "%+v" rendering of any value not
  covered by another constructor.
* HTTP header names are compared literally; net/http's canonicalisation of
  MIME header keys is abstracted away (the middleware and the HTTP logger
  agree on the literal names they use).
-/

namespace Logging

/-! ## config.go: the Level enumeration and the Config record -/

def LevelFirst : Nat := 0
def LevelCritical : Nat := 1
def LevelError : Nat := 2
def LevelWarn : Nat := 3
def LevelInfo : Nat := 4
def LevelDebug : Nat := 5
def LevelLast : Nat := 6

structure Config where
  ProjectID : String
  Level : Nat
  Development : Bool
  KeyRequestID : String
  KeyUserID : String
  KeyError : String
  KeyScope : String
deriving DecidableEq

/-! ## logging.go: package state -/

/-- The package-level configuration variables of logging.go. -/
structure LogState where
  logLevel : Nat
  projectID : String
  keyRequestID : String
  keyUserID : String
  keyError : String
  keyScope : String
deriving DecidableEq

/-- Initial values of the package-level variables (logging.go lines 19-24). -/
def defaultState : LogState :=
  { logLevel := LevelDebug
    projectID := ""
    keyRequestID := "request_id"
    keyUserID := "user_id"
    keyError := "err"
    keyScope := "scope" }

def keyRemoteIP : String := "remote_ip"
def keyRoute : String := "route"

/-- State update performed by `Initialize` (logging.go lines 31-56).  The
construction of the underlying zap logger (an external collaborator) and its
possible error are outside the state model; only the assignment block guarded
by `c != nil` is captured. -/
def Initialize (st : LogState) (c : Option Config) : LogState :=
  match c with
  | none => st
  | some cfg =>
      { logLevel := cfg.Level
        projectID := cfg.ProjectID
        keyRequestID := cfg.KeyRequestID
        keyUserID := cfg.KeyUserID
        keyError := cfg.KeyError
        keyScope := cfg.KeyScope }

/-! ## Values, contexts, fields, effects -/

/-- A Go `interface{}` value as far as parseLabels can distinguish them. -/
inductive GoValue where
  | str (s : String)
  | ptrStr (p : Option String)
  | bytes (s : String)
  | ptrBytes (p : Option String)
  | int (n : Int)
  | int8 (n : Int)
  | int16 (n : Int)
  | int32 (n : Int)
  | int64 (n : Int)
  | err (msg : String)
  | other (rendered : String)
deriving DecidableEq

/-- A value stored in a `context.Context`; the code only ever asserts the
`string` type, so every non-string value is collapsed into one constructor. -/
inductive CtxVal where
  | str (s : String)
  | nonString
deriving DecidableEq

/-- The request-scoped context: the trace/span ids the trace provider reports
for it, and the key/value pairs reachable through `ctx.Value`. -/
structure Ctx where
  traceID : String
  spanID : String
  values : List (String × CtxVal)
deriving DecidableEq

def ctxString (ctx : Ctx) (key : String) : Option String :=
  match (ctx.values.find? (fun p => p.fst == key)).map Prod.snd with
  | some (CtxVal.str s) => some s
  | _ => none

/-- A structured field handed to the sink.  `zapdriver.Label` produces
`label`; `zapdriver.SourceLocation`, `zapdriver.TraceContext` and
`zapdriver.HTTP` are opaque external constructors modelled by markers. -/
inductive Field where
  | label (key val : String)
  | sourceLocation
  | traceContext (traceID spanID projectID : String)
  | httpPayload (latency : String) (status : Nat)
deriving DecidableEq

/-- One record handed to the sink: the zap method's severity, the message,
and the ordered field list. -/
structure SinkCall where
  severity : Nat
  msg : String
  fields : List Field
deriving DecidableEq

/-- Observable sink-level events, in order of occurrence. -/
inductive SinkEvent where
  | submit (call : SinkCall)
  | flush
  | terminate
deriving DecidableEq

/-- The observable effects of one `zlog` call. -/
structure LogEffect where
  formatted : Bool
  traceReads : Nat
  sourceLookups : Nat
  events : List SinkEvent
deriving DecidableEq

def emptyEffect : LogEffect :=
  { formatted := false, traceReads := 0, sourceLookups := 0, events := [] }

def submits (e : LogEffect) : List SinkCall :=
  e.events.filterMap (fun ev =>
    match ev with
    | SinkEvent.submit c => some c
    | _ => none)

def flushCount (e : LogEffect) : Nat :=
  (e.events.filter (fun ev =>
    match ev with
    | SinkEvent.flush => true
    | _ => false)).length

def terminates (e : LogEffect) : Bool :=
  e.events.any (fun ev =>
    match ev with
    | SinkEvent.terminate => true
    | _ => false)

/-! ## logging.go: parseLabels -/

/-- The fields contributed by one key/value pair of the variadic argument
list (the body of the loop in parseLabels, lines 138-169).  A non-string key
contributes nothing.  The constructors reaching Go's `default` type-switch
branch (int8, int16, error values under a non-error key, and `other`) are
rendered with `fmt.Sprintf("%+v", v)`: base-10 digits for the integers, the
`Error()` text for error values, and the carried rendering for `other`. -/
def pairFields (st : LogState) (key val : GoValue) : List Field :=
  match key with
  | GoValue.str keyStr =>
      if keyStr = "error" ∨ keyStr = st.keyError then
        match val with
        | GoValue.err m => [Field.label st.keyError m]
        | _ => []
      else
        match val with
        | GoValue.str v => [Field.label keyStr v]
        | GoValue.ptrStr (some v) => [Field.label keyStr v]
        | GoValue.ptrStr none => []
        | GoValue.bytes v => [Field.label keyStr v]
        | GoValue.ptrBytes (some v) => [Field.label keyStr v]
        | GoValue.ptrBytes none => []
        | GoValue.int n => [Field.label keyStr (toString n)]
        | GoValue.int32 n => [Field.label keyStr (toString n)]
        | GoValue.int64 n => [Field.label keyStr (toString n)]
        | GoValue.int8 n => [Field.label keyStr (toString n)]
        | GoValue.int16 n => [Field.label keyStr (toString n)]
        | GoValue.err m => [Field.label keyStr m]
        | GoValue.other r => [Field.label keyStr r]
  | _ => []

/-- parseLabels (logging.go lines 129-173): walk the argument list two at a
time; the loop breaks when only one element is left, dropping a trailing
unpaired key. -/
def parseLabels (st : LogState) : List GoValue → List Field
  | [] => []
  | [_] => []
  | k :: v :: rest => pairFields st k v ++ parseLabels st rest

/-! ## logging.go: zlog and the leveled entry points -/

/-- The emission guard of zlog (line 176), negated: the spec's
`ShouldEmit(level, threshold)`. -/
def shouldEmit (level threshold : Nat) : Bool :=
  if level ≤ LevelFirst ∨ level ≥ LevelLast ∨ level > threshold then false
  else true

/-- The zap method selected by the switch at lines 202-213: anything that is
not Info/Error/Critical/Warn falls to the Debug branch. -/
def sinkSeverity (level : Nat) : Nat :=
  if level = LevelInfo then LevelInfo
  else if level = LevelError then LevelError
  else if level = LevelCritical then LevelCritical
  else if level = LevelWarn then LevelWarn
  else LevelDebug

/-- The correlation and source fields attached by zlog (lines 183-201). -/
def zlogFields (st : LogState) (ctx : Ctx) (keysAndValues : List GoValue) :
    List Field :=
  [Field.label st.keyRequestID ctx.traceID, Field.sourceLocation]
    ++ (if st.projectID = "" then []
        else [Field.traceContext ctx.traceID ctx.spanID st.projectID])
    ++ (match ctxString ctx st.keyUserID with
        | some u => [Field.label st.keyUserID u]
        | none => [])
    ++ (match ctxString ctx st.keyScope with
        | some s => [Field.label st.keyScope s]
        | none => [])
    ++ parseLabels st keysAndValues

/-- zlog (logging.go lines 175-214).  `sprintf` stands for `fmt.Sprintf`
applied to the format string and the variadic arguments.  When filtered the
function returns before any formatting, trace read, or source lookup.  A
Critical-level record is submitted through the sink's fatal path, which by
the Sink collaborator's contract flushes once and then terminates the
process. -/
def zlog (sprintf : String → List GoValue → String) (st : LogState) (ctx : Ctx)
    (level : Nat) (format : String) (args : List GoValue)
    (keysAndValues : List GoValue) : LogEffect :=
  if shouldEmit level st.logLevel then
    let msg := sprintf format args
    let call : SinkCall :=
      { severity := sinkSeverity level
        msg := msg
        fields := zlogFields st ctx keysAndValues }
    { formatted := true
      traceReads := 2
      sourceLookups := 1
      events :=
        if level = LevelCritical then
          [SinkEvent.submit call, SinkEvent.flush, SinkEvent.terminate]
        else
          [SinkEvent.submit call] }
  else emptyEffect

/-- Critical (logging.go lines 94-97). -/
def Critical (sprintf : String → List GoValue → String) (st : LogState)
    (ctx : Ctx) (format : String) (args : List GoValue) : LogEffect :=
  zlog sprintf st ctx LevelCritical format args []

/-- Error (logging.go lines 99-102). -/
def Error (sprintf : String → List GoValue → String) (st : LogState)
    (ctx : Ctx) (format : String) (args : List GoValue) : LogEffect :=
  zlog sprintf st ctx LevelError format args []

/-- Errorw (logging.go lines 104-107). -/
def Errorw (sprintf : String → List GoValue → String) (st : LogState)
    (ctx : Ctx) (msg : String) (keysAndValues : List GoValue) : LogEffect :=
  zlog sprintf st ctx LevelError msg [] keysAndValues

/-- Warn (logging.go lines 109-112). -/
def Warn (sprintf : String → List GoValue → String) (st : LogState)
    (ctx : Ctx) (format : String) (args : List GoValue) : LogEffect :=
  zlog sprintf st ctx LevelWarn format args []

/-- Info (logging.go lines 114-117). -/
def Info (sprintf : String → List GoValue → String) (st : LogState)
    (ctx : Ctx) (format : String) (args : List GoValue) : LogEffect :=
  zlog sprintf st ctx LevelInfo format args []

/-- Infow (logging.go lines 119-122). -/
def Infow (sprintf : String → List GoValue → String) (st : LogState)
    (ctx : Ctx) (msg : String) (keysAndValues : List GoValue) : LogEffect :=
  zlog sprintf st ctx LevelInfo msg [] keysAndValues

/-- Debug (logging.go lines 124-127). -/
def Debug (sprintf : String → List GoValue → String) (st : LogState)
    (ctx : Ctx) (format : String) (args : List GoValue) : LogEffect :=
  zlog sprintf st ctx LevelDebug format args []

/-! ## logging.go: HTTP -/

/-- An inbound HTTP request as far as the package observes it. -/
structure Request where
  headers : List (String × String)
  remoteAddr : String
  escapedPath : String
deriving DecidableEq

/-- `Header.Get`: first value stored under the name, or the empty string. -/
def getHeader (req : Request) (name : String) : String :=
  ((req.headers.find? (fun p => p.fst == name)).map Prod.snd).getD ""

/-- The field list built by HTTP (logging.go lines 72-89). -/
def httpFields (st : LogState) (ctx : Ctx) (req : Request) (status : Nat)
    (path latency : String) : List Field :=
  [Field.httpPayload latency status,
   Field.label st.keyRequestID ctx.traceID,
   Field.label keyRemoteIP (getHeader req "true-client-ip"),
   Field.label keyRoute path]
    ++ (if st.projectID = "" then []
        else [Field.traceContext ctx.traceID ctx.spanID st.projectID])
    ++ (match ctxString ctx st.keyUserID with
        | some u => [Field.label st.keyUserID u]
        | none => [])
    ++ (match ctxString ctx st.keyScope with
        | some s => [Field.label st.keyScope s]
        | none => [])

/-- HTTP (logging.go lines 67-92): build the request record and hand it to
`zlogger.Info` unconditionally, with no severity-threshold check. -/
def HTTP (st : LogState) (ctx : Ctx) (req : Request) (status : Nat)
    (path latency : String) : SinkCall :=
  { severity := LevelInfo
    msg := "request log"
    fields := httpFields st ctx req status path latency }

/-! ## middleware.go: RequestLogger -/

/-- Splitting a character list at every occurrence of a separator; the result
is always non-empty, and splitting the empty list yields one empty piece. -/
def splitChars (sep : Char) : List Char → List (List Char)
  | [] => [[]]
  | c :: rest =>
      if c = sep then [] :: splitChars sep rest
      else
        match splitChars sep rest with
        | [] => [[c]]
        | piece :: pieces => (c :: piece) :: pieces

/-- Go's `strings.Split(s, sep)` for the one-character separators used by the
middleware ("," and ":"): `Split("", sep) = [""]`, and otherwise the pieces
between occurrences of the separator, in order. -/
def stringsSplit (s : String) (sep : Char) : List String :=
  (splitChars sep s.toList).map (fun piece => String.mk piece)

/-- Client-IP derivation (middleware.go lines 25-31): the first
comma-separated component of the X-Forwarded-For header value when that
component is non-empty, otherwise the first colon-separated component of the
connection's remote address.  Go's `strings.Split` on a non-empty separator
never returns an empty slice, so indexing its first element is total. -/
def deriveClientIP (xff remoteAddr : String) : String :=
  let forwardChain := stringsSplit xff ','
  if forwardChain.headD "" ≠ "" then forwardChain.headD ""
  else (stringsSplit remoteAddr ':').headD ""

/-- The observable effects of one pass of the middleware handler. -/
structure MwEffect where
  handlerInvoked : Bool
  headerAdds : List (String × String)
  timed : Bool
  httpEvents : List SinkEvent
deriving DecidableEq

def emptyMwEffect : MwEffect :=
  { handlerInvoked := false, headerAdds := [], timed := false, httpEvents := [] }

/-- One pass of the handler returned by RequestLogger (middleware.go lines
19-46).  `handlerStatus` is the status code observed on the response writer
after `ctx.Next()` returns, `route` is `ctx.FullPath()`, and `latency` is the
string rendering of the measured duration.  Membership of the escaped path in
the exclusion list models the lookup in the `requestLogExcludes` map. -/
def requestLogger (excludes : List String) (st : LogState) (ctx : Ctx)
    (req : Request) (handlerStatus : Nat) (route latency : String) : MwEffect :=
  if req.escapedPath ∈ excludes then emptyMwEffect
  else
    let remoteIP := deriveClientIP (getHeader req "X-Forwarded-For") req.remoteAddr
    let adds := [("x-forwarded-for", remoteIP), ("true-client-ip", remoteIP)]
    let req2 : Request := { req with headers := req.headers ++ adds }
    { handlerInvoked := true
      headerAdds := adds
      timed := true
      httpEvents :=
        [SinkEvent.submit (HTTP st ctx req2 handlerStatus route latency)] }

/-! ## Concrete fixtures used by counterexamples and witnesses -/

/-- A concrete stand-in for `fmt.Sprintf` in closed statements. -/
def sprintf0 : String → List GoValue → String := fun format _ => format

def ctx0 : Ctx := { traceID := "", spanID := "", values := [] }

def stThresholdFirst : LogState := { defaultState with logLevel := LevelFirst }

def cZero : Config :=
  { ProjectID := "p"
    Level := LevelFirst
    Development := false
    KeyRequestID := "rid"
    KeyUserID := "uid"
    KeyError := "e"
    KeyScope := "sc" }

/-! ## Theorems -/

/-- The guard at logging.go line 176, negated: a level passes iff it lies
strictly between the sentinels and is at most the threshold. -/
theorem shouldEmit_iff (level t : Nat) :
    shouldEmit level t = true ↔
      (LevelFirst < level ∧ level < LevelLast ∧ level ≤ t) := by
  unfold shouldEmit
  by_cases h : level ≤ LevelFirst ∨ level ≥ LevelLast ∨ level > t
  · rw [if_pos h]
    simp only [LevelFirst, LevelLast] at *
    constructor
    · intro hfalse
      exact absurd hfalse (by simp)
    · intro hc
      omega
  · rw [if_neg h]
    simp only [LevelFirst, LevelLast] at *
    constructor
    · intro _
      omega
    · intro _
      trivial

/-- Claim C1: a leveled log call emits a record iff its level lies strictly
between the sentinels LevelFirst and LevelLast and is at most the configured
threshold; a level at or outside the sentinels never emits, for any
threshold. -/
theorem zlog_emits_iff (sprintf : String → List GoValue → String)
    (st : LogState) (ctx : Ctx) (level : Nat) (format : String)
    (args keysAndValues : List GoValue) :
    submits (zlog sprintf st ctx level format args keysAndValues) ≠ [] ↔
      (LevelFirst < level ∧ level < LevelLast ∧ level ≤ st.logLevel) := by
  rw [← shouldEmit_iff level st.logLevel]
  unfold zlog
  cases hse : shouldEmit level st.logLevel with
  | false => simp [emptyEffect, submits]
  | true =>
      simp only [if_true]
      by_cases hc : level = LevelCritical <;> simp [hc, submits]

/-- Claim C2 counterexample: with the threshold set to the LevelFirst
sentinel, a Critical call is filtered by the guard, so nothing is submitted,
the sink is never flushed, and the process does not terminate — refuting
"this holds always (for every configured threshold)". -/
theorem critical_filtered_at_first_threshold :
    Critical sprintf0 stThresholdFirst ctx0 "boom" [] = emptyEffect ∧
    flushCount (Critical sprintf0 stThresholdFirst ctx0 "boom" []) = 0 ∧
    terminates (Critical sprintf0 stThresholdFirst ctx0 "boom" []) = false := by
  decide

/-- Claim C2 (amended): whenever the configured threshold is at least
LevelCritical, a Critical call submits the record to the sink and the sink is
then flushed exactly once, after which the process terminates; with the
threshold below LevelCritical (the LevelFirst sentinel) the call emits
nothing and returns normally. -/
theorem critical_fatal_when_threshold_allows
    (sprintf : String → List GoValue → String) (st : LogState) (ctx : Ctx)
    (format : String) (args : List GoValue)
    (h : LevelCritical ≤ st.logLevel) :
    ∃ call : SinkCall,
      (Critical sprintf st ctx format args).events =
        [SinkEvent.submit call, SinkEvent.flush, SinkEvent.terminate] := by
  have hcond : ¬ (LevelCritical ≤ LevelFirst ∨ LevelCritical ≥ LevelLast ∨
      LevelCritical > st.logLevel) := by
    simp only [LevelCritical, LevelFirst, LevelLast] at *
    omega
  have hse : shouldEmit LevelCritical st.logLevel = true := by
    unfold shouldEmit
    rw [if_neg hcond]
  refine ⟨{ severity := sinkSeverity LevelCritical
            msg := sprintf format args
            fields := zlogFields st ctx [] }, ?_⟩
  simp [Critical, zlog, hse]

/-- Witness for the amended claim C2 at a concrete state. -/
theorem critical_fatal_when_threshold_allows_witness :
    ∃ call : SinkCall,
      (Critical sprintf0 defaultState ctx0 "boom" []).events =
        [SinkEvent.submit call, SinkEvent.flush, SinkEvent.terminate] :=
  critical_fatal_when_threshold_allows sprintf0 defaultState ctx0 "boom" []
    (by decide)

/-- Claim C3: Initialize with a non-nil Config unconditionally overwrites the
threshold and the four correlation key names with the Config's fields, zero
values included; and when the Config's Level is the zero value (the
LevelFirst sentinel), no subsequent leveled call at any level submits
anything to the sink. -/
theorem initialize_overwrites_and_zero_level_silences (st : LogState)
    (c : Config) :
    (Initialize st (some c)).logLevel = c.Level ∧
    (Initialize st (some c)).keyRequestID = c.KeyRequestID ∧
    (Initialize st (some c)).keyUserID = c.KeyUserID ∧
    (Initialize st (some c)).keyError = c.KeyError ∧
    (Initialize st (some c)).keyScope = c.KeyScope ∧
    (c.Level = LevelFirst →
      ∀ (sprintf : String → List GoValue → String) (ctx : Ctx) (level : Nat)
        (format : String) (args keysAndValues : List GoValue),
        submits (zlog sprintf (Initialize st (some c)) ctx level format args
          keysAndValues) = []) := by
  refine ⟨rfl, rfl, rfl, rfl, rfl, ?_⟩
  intro hzero sprintf ctx level format args keysAndValues
  have hcond : level ≤ LevelFirst ∨ level ≥ LevelLast ∨
      level > (Initialize st (some c)).logLevel := by
    simp only [Initialize, hzero, LevelFirst, LevelLast]
    omega
  have hse : shouldEmit level (Initialize st (some c)).logLevel = false := by
    unfold shouldEmit
    rw [if_pos hcond]
  simp [zlog, hse, submits, emptyEffect]

/-- Witness for claim C3 at a concrete zero-level Config: the threshold
becomes the sentinel and even a Critical call submits nothing. -/
theorem initialize_overwrites_and_zero_level_silences_witness :
    cZero.Level = LevelFirst ∧
    (Initialize defaultState (some cZero)).logLevel = cZero.Level ∧
    submits (zlog sprintf0 (Initialize defaultState (some cZero)) ctx0
      LevelCritical "boom" [] []) = [] :=
  ⟨rfl,
   (initialize_overwrites_and_zero_level_silences defaultState cZero).1,
   (initialize_overwrites_and_zero_level_silences defaultState cZero).2.2.2.2.2
     rfl sprintf0 ctx0 LevelCritical "boom" [] []⟩

/-- Claim C7: a leveled call whose level is filtered under the configured
threshold returns immediately: no sink submission, no trace-provider read,
no message formatting, no source-location lookup — the whole effect is
empty. -/
theorem filtered_call_skips_all_work
    (sprintf : String → List GoValue → String) (st : LogState) (ctx : Ctx)
    (level : Nat) (format : String) (args keysAndValues : List GoValue)
    (h : shouldEmit level st.logLevel = false) :
    submits (zlog sprintf st ctx level format args keysAndValues) = [] ∧
    (zlog sprintf st ctx level format args keysAndValues).traceReads = 0 ∧
    (zlog sprintf st ctx level format args keysAndValues).formatted = false ∧
    (zlog sprintf st ctx level format args keysAndValues).sourceLookups = 0 ∧
    zlog sprintf st ctx level format args keysAndValues = emptyEffect := by
  simp [zlog, h, submits, emptyEffect]

/-- Witness for claim C7: a Debug call under a Critical threshold does no
work at all. -/
theorem filtered_call_skips_all_work_witness :
    submits (zlog sprintf0 { defaultState with logLevel := LevelCritical }
      ctx0 LevelDebug "x" [] []) = [] ∧
    (zlog sprintf0 { defaultState with logLevel := LevelCritical }
      ctx0 LevelDebug "x" [] []).traceReads = 0 ∧
    (zlog sprintf0 { defaultState with logLevel := LevelCritical }
      ctx0 LevelDebug "x" [] []).formatted = false ∧
    (zlog sprintf0 { defaultState with logLevel := LevelCritical }
      ctx0 LevelDebug "x" [] []).sourceLookups = 0 ∧
    zlog sprintf0 { defaultState with logLevel := LevelCritical }
      ctx0 LevelDebug "x" [] [] = emptyEffect :=
  filtered_call_skips_all_work sprintf0
    { defaultState with logLevel := LevelCritical } ctx0 LevelDebug "x" [] []
    (by decide)

/-- Odd-length argument lists encode like their even-length prefix: the loop
in parseLabels breaks when exactly one element is left. -/
theorem parseLabels_odd_drop (st : LogState) :
    ∀ args : List GoValue, args.length % 2 = 1 →
      parseLabels st args = parseLabels st args.dropLast
  | [], h => by simp at h
  | [_], _ => by simp [parseLabels]
  | [_, _], h => by simp at h
  | k :: v :: w :: rest, h => by
      have hr : (w :: rest).length % 2 = 1 := by
        simp only [List.length_cons] at h ⊢
        omega
      have ih := parseLabels_odd_drop st (w :: rest) hr
      rw [List.dropLast_cons₂]
      simp only [parseLabels]
      rw [ih]

/-- Claim C4: the field encoder drops a trailing unpaired key, producing the
same output as on the even-length prefix; in particular a one-element list
encodes like the empty list. -/
theorem encode_drops_trailing_key (st : LogState) (args : List GoValue)
    (k : GoValue) (h : args.length % 2 = 1) :
    parseLabels st args = parseLabels st args.dropLast ∧
    parseLabels st [k] = parseLabels st [] :=
  ⟨parseLabels_odd_drop st args h, by simp [parseLabels]⟩

/-- Witness for claim C4 on a concrete three-element list. -/
theorem encode_drops_trailing_key_witness :
    parseLabels defaultState
        [GoValue.str "a", GoValue.str "b", GoValue.str "c"] =
      parseLabels defaultState
        ([GoValue.str "a", GoValue.str "b", GoValue.str "c"].dropLast) ∧
    parseLabels defaultState [GoValue.str "c"] = parseLabels defaultState [] :=
  encode_drops_trailing_key defaultState
    [GoValue.str "a", GoValue.str "b", GoValue.str "c"] (GoValue.str "c")
    (by decide)

/-- Claim C5: a pair whose key is the literal "error" or the configured
error-key name yields exactly one field, under the configured error-key name,
carrying the error's display message, when the value is error-shaped; any
non-error-shaped value under such a key contributes no field at all.  Stated
both for such a pair inside a longer argument list and for the singleton
encoding. -/
theorem encode_error_key_pairs (st : LogState) (k : String) (v : GoValue)
    (h : k = "error" ∨ k = st.keyError) :
    (∀ rest : List GoValue,
      parseLabels st (GoValue.str k :: v :: rest) =
        (match v with
         | GoValue.err m => [Field.label st.keyError m]
         | _ => []) ++ parseLabels st rest) ∧
    parseLabels st [GoValue.str k, v] =
      (match v with
       | GoValue.err m => [Field.label st.keyError m]
       | _ => []) := by
  constructor
  · intro rest
    simp only [parseLabels, pairFields, if_pos h]
  · simp only [parseLabels, pairFields, if_pos h]
    cases v <;> simp

/-- Witness for claim C5: under the default state an error value under the
key "error" becomes one field named "err"; a plain string under the same key
is dropped. -/
theorem encode_error_key_pairs_witness :
    parseLabels defaultState [GoValue.str "error", GoValue.err "boom"] =
      [Field.label "err" "boom"] ∧
    parseLabels defaultState
      [GoValue.str "error", GoValue.str "not-an-error"] = [] :=
  ⟨((encode_error_key_pairs defaultState "error" (GoValue.err "boom")
      (Or.inl rfl)).2),
   ((encode_error_key_pairs defaultState "error" (GoValue.str "not-an-error")
      (Or.inl rfl)).2)⟩

/-- Claim C6: for a pair whose key matches neither "error" nor the configured
error-key name, encoding is type-directed on the value: strings pass through;
a present optional string is dereferenced while an absent one yields no
field; byte sequences are decoded to their string form; signed integers of
every width are rendered in base 10 (int8/int16 reach Go's default branch,
whose "%+v" rendering is also base 10); every remaining value is rendered via
the "%+v" structural dump, so no value type is silently lost. -/
theorem encode_typed_values (st : LogState) (k : String)
    (h1 : k ≠ "error") (h2 : k ≠ st.keyError) :
    (∀ s, parseLabels st [GoValue.str k, GoValue.str s] = [Field.label k s]) ∧
    (∀ s, parseLabels st [GoValue.str k, GoValue.ptrStr (some s)] =
      [Field.label k s]) ∧
    parseLabels st [GoValue.str k, GoValue.ptrStr none] = [] ∧
    (∀ s, parseLabels st [GoValue.str k, GoValue.bytes s] =
      [Field.label k s]) ∧
    (∀ n, parseLabels st [GoValue.str k, GoValue.int n] =
      [Field.label k (toString n)]) ∧
    (∀ n, parseLabels st [GoValue.str k, GoValue.int8 n] =
      [Field.label k (toString n)]) ∧
    (∀ n, parseLabels st [GoValue.str k, GoValue.int16 n] =
      [Field.label k (toString n)]) ∧
    (∀ n, parseLabels st [GoValue.str k, GoValue.int32 n] =
      [Field.label k (toString n)]) ∧
    (∀ n, parseLabels st [GoValue.str k, GoValue.int64 n] =
      [Field.label k (toString n)]) ∧
    (∀ m, parseLabels st [GoValue.str k, GoValue.err m] =
      [Field.label k m]) ∧
    (∀ r, parseLabels st [GoValue.str k, GoValue.other r] =
      [Field.label k r]) ∧
    parseLabels st [GoValue.str k, GoValue.int32 42] = [Field.label k "42"] := by
  have hkey : ¬ (k = "error" ∨ k = st.keyError) := by
    intro hor
    cases hor with
    | inl hl => exact h1 hl
    | inr hr => exact h2 hr
  refine ⟨?_, ?_, ?_, ?_, ?_, ?_, ?_, ?_, ?_, ?_, ?_, ?_⟩ <;>
    simp [parseLabels, pairFields, if_neg hkey]
  decide

/-- Witness for claim C6 with the concrete key "n" under the default state;
in particular int32 42 renders as the string "42". -/
theorem encode_typed_values_witness :
    (∀ s, parseLabels defaultState [GoValue.str "n", GoValue.str s] =
      [Field.label "n" s]) ∧
    (∀ s, parseLabels defaultState
      [GoValue.str "n", GoValue.ptrStr (some s)] = [Field.label "n" s]) ∧
    parseLabels defaultState [GoValue.str "n", GoValue.ptrStr none] = [] ∧
    (∀ s, parseLabels defaultState [GoValue.str "n", GoValue.bytes s] =
      [Field.label "n" s]) ∧
    (∀ n, parseLabels defaultState [GoValue.str "n", GoValue.int n] =
      [Field.label "n" (toString n)]) ∧
    (∀ n, parseLabels defaultState [GoValue.str "n", GoValue.int8 n] =
      [Field.label "n" (toString n)]) ∧
    (∀ n, parseLabels defaultState [GoValue.str "n", GoValue.int16 n] =
      [Field.label "n" (toString n)]) ∧
    (∀ n, parseLabels defaultState [GoValue.str "n", GoValue.int32 n] =
      [Field.label "n" (toString n)]) ∧
    (∀ n, parseLabels defaultState [GoValue.str "n", GoValue.int64 n] =
      [Field.label "n" (toString n)]) ∧
    (∀ m, parseLabels defaultState [GoValue.str "n", GoValue.err m] =
      [Field.label "n" m]) ∧
    (∀ r, parseLabels defaultState [GoValue.str "n", GoValue.other r] =
      [Field.label "n" r]) ∧
    parseLabels defaultState [GoValue.str "n", GoValue.int32 42] =
      [Field.label "n" "42"] :=
  encode_typed_values defaultState "n" (by decide) (by decide)

/-- Claim C8: for a request the middleware handles, the derived client IP is
the first comma-separated component of the X-Forwarded-For header when that
component is non-empty, and otherwise the remote address with its port
stripped (its first colon-separated component); the derived IP is injected
onto the request under the headers x-forwarded-for and true-client-ip.  The
two concrete shapes named by the spec are included: header
"1.2.3.4, 5.6.7.8" yields "1.2.3.4", and an empty header with remote address
"9.9.9.9:443" yields "9.9.9.9". -/
theorem middleware_derives_client_ip (excludes : List String) (st : LogState)
    (ctx : Ctx) (req : Request) (handlerStatus : Nat) (route latency : String)
    (h : req.escapedPath ∉ excludes) :
    (requestLogger excludes st ctx req handlerStatus route latency).headerAdds =
      [("x-forwarded-for",
        deriveClientIP (getHeader req "X-Forwarded-For") req.remoteAddr),
       ("true-client-ip",
        deriveClientIP (getHeader req "X-Forwarded-For") req.remoteAddr)] ∧
    (∀ remoteAddr, deriveClientIP "1.2.3.4, 5.6.7.8" remoteAddr = "1.2.3.4") ∧
    deriveClientIP "" "9.9.9.9:443" = "9.9.9.9" := by
  refine ⟨?_, ?_, ?_⟩
  · simp [requestLogger, if_neg h]
  · intro remoteAddr
    unfold deriveClientIP
    rw [if_pos (by decide)]
    decide
  · decide

/-- Witness for claim C8 on a concrete request carrying the header
"1.2.3.4, 5.6.7.8". -/
theorem middleware_derives_client_ip_witness :
    (requestLogger ["/health"] defaultState ctx0
        { headers := [("X-Forwarded-For", "1.2.3.4, 5.6.7.8")]
          remoteAddr := "9.9.9.9:443"
          escapedPath := "/api" } 200 "/api" "1ms").headerAdds =
      [("x-forwarded-for",
        deriveClientIP
          (getHeader
            { headers := [("X-Forwarded-For", "1.2.3.4, 5.6.7.8")]
              remoteAddr := "9.9.9.9:443"
              escapedPath := "/api" } "X-Forwarded-For") "9.9.9.9:443"),
       ("true-client-ip",
        deriveClientIP
          (getHeader
            { headers := [("X-Forwarded-For", "1.2.3.4, 5.6.7.8")]
              remoteAddr := "9.9.9.9:443"
              escapedPath := "/api" } "X-Forwarded-For") "9.9.9.9:443")] ∧
    (∀ remoteAddr, deriveClientIP "1.2.3.4, 5.6.7.8" remoteAddr = "1.2.3.4") ∧
    deriveClientIP "" "9.9.9.9:443" = "9.9.9.9" :=
  middleware_derives_client_ip ["/health"] defaultState ctx0
    { headers := [("X-Forwarded-For", "1.2.3.4, 5.6.7.8")]
      remoteAddr := "9.9.9.9:443"
      escapedPath := "/api" } 200 "/api" "1ms" (by decide)

/-- Claim C9: a request whose escaped path is in the exclusion list makes the
middleware return immediately: the wrapped handler is never invoked, no
headers are added, no timing is recorded, and no log record is produced. -/
theorem excluded_path_short_circuits (excludes : List String) (st : LogState)
    (ctx : Ctx) (req : Request) (handlerStatus : Nat) (route latency : String)
    (h : req.escapedPath ∈ excludes) :
    (requestLogger excludes st ctx req handlerStatus route
      latency).handlerInvoked = false ∧
    (requestLogger excludes st ctx req handlerStatus route
      latency).headerAdds = [] ∧
    (requestLogger excludes st ctx req handlerStatus route latency).timed =
      false ∧
    (requestLogger excludes st ctx req handlerStatus route
      latency).httpEvents = [] ∧
    requestLogger excludes st ctx req handlerStatus route latency =
      emptyMwEffect := by
  simp [requestLogger, if_pos h, emptyMwEffect]

/-- Witness for claim C9 on a concrete excluded path. -/
theorem excluded_path_short_circuits_witness :
    (requestLogger ["/health"] defaultState ctx0
        { headers := [], remoteAddr := "9.9.9.9:443",
          escapedPath := "/health" } 200 "" "1ms").handlerInvoked = false ∧
    (requestLogger ["/health"] defaultState ctx0
        { headers := [], remoteAddr := "9.9.9.9:443",
          escapedPath := "/health" } 200 "" "1ms").headerAdds = [] ∧
    (requestLogger ["/health"] defaultState ctx0
        { headers := [], remoteAddr := "9.9.9.9:443",
          escapedPath := "/health" } 200 "" "1ms").timed = false ∧
    (requestLogger ["/health"] defaultState ctx0
        { headers := [], remoteAddr := "9.9.9.9:443",
          escapedPath := "/health" } 200 "" "1ms").httpEvents = [] ∧
    requestLogger ["/health"] defaultState ctx0
        { headers := [], remoteAddr := "9.9.9.9:443",
          escapedPath := "/health" } 200 "" "1ms" = emptyMwEffect :=
  excluded_path_short_circuits ["/health"] defaultState ctx0
    { headers := [], remoteAddr := "9.9.9.9:443", escapedPath := "/health" }
    200 "" "1ms" (by decide)

/-- Claim C10: for a request not in the exclusion list, the middleware
submits exactly one HTTP-shaped record through the HTTP entry point at
informational severity, for every configured threshold — the access-log path
never consults the severity filter. -/
theorem access_log_unconditional_info (excludes : List String)
    (st : LogState) (threshold : Nat) (ctx : Ctx) (req : Request)
    (handlerStatus : Nat) (route latency : String)
    (h : req.escapedPath ∉ excludes) :
    ∃ call : SinkCall,
      (requestLogger excludes { st with logLevel := threshold } ctx req
        handlerStatus route latency).httpEvents = [SinkEvent.submit call] ∧
      call.severity = LevelInfo ∧
      call.msg = "request log" ∧
      Field.httpPayload latency handlerStatus ∈ call.fields := by
  simp only [requestLogger, if_neg h]
  exact ⟨_, rfl, rfl, rfl, by simp [HTTP, httpFields]⟩

/-- Witness for claim C10: with the threshold at the LevelFirst sentinel
(which silences every application-level call) the access log still fires at
informational severity. -/
theorem access_log_unconditional_info_witness :
    ∃ call : SinkCall,
      (requestLogger ["/health"] { defaultState with logLevel := LevelFirst }
        ctx0 { headers := [], remoteAddr := "9.9.9.9:443",
               escapedPath := "/api" } 200 "/api" "1ms").httpEvents =
        [SinkEvent.submit call] ∧
      call.severity = LevelInfo ∧
      call.msg = "request log" ∧
      Field.httpPayload "1ms" 200 ∈ call.fields :=
  access_log_unconditional_info ["/health"] defaultState LevelFirst ctx0
    { headers := [], remoteAddr := "9.9.9.9:443", escapedPath := "/api" }
    200 "/api" "1ms" (by decide)

end Logging
